import Mathlib

/-!
# Verification of the Rastreador-Donaciones temporal-alert engine

Shallow embedding of the record-linkage and temporal-alert core of the
repository: identity and date normalization, the merge-based temporal join
(`_detectar_alertas_temporales` in `src/tabs/tab_contratos.py`), the
group-by aggregation, the column resolver (`preparar_contratos` in
`src/main.py`), the contribution-identity validity filter (`src/main.py`,
`main`), and the market-concentration bands
(`_mostrar_top_proveedores` in `src/tabs/tab_contratos.py`).

Tables are modelled as lists of records; pandas in-place column
assignment is modelled by explicitly returning the caller-visible state
of the argument table.
-/

namespace Rastreador

/-- A calendar date, as produced by `pd.to_datetime` (no intraday time is
ever used by the analysed code paths). -/
structure Date where
  year : Int
  month : Nat
  day : Nat
deriving DecidableEq, Repr

/-- Leap-year test of the Gregorian calendar. -/
def isLeap (y : Int) : Bool :=
  (y % 4 == 0 && y % 100 != 0) || (y % 400 == 0)

/-- Number of days in a month of a given year. -/
def daysInMonth (y : Int) (m : Nat) : Nat :=
  if m = 2 then (if isLeap y then 29 else 28)
  else if m = 4 ∨ m = 6 ∨ m = 9 ∨ m = 11 then 30
  else 31

/-- Validity of a (year, month, day) triple. -/
def validDate (y : Int) (m d : Nat) : Bool :=
  1 ≤ m && m ≤ 12 && 1 ≤ d && d ≤ daysInMonth y m

/-- Days since the epoch 1970-01-01 of a civil date (standard
days-from-civil algorithm); used to model `timedelta.days`. -/
def toEpochDays (dt : Date) : Int :=
  let y : Int := if dt.month ≤ 2 then dt.year - 1 else dt.year
  let era : Int := (if 0 ≤ y then y else y - 399) / 400
  let yoe : Nat := (y - era * 400).toNat
  let mp : Nat := if 2 < dt.month then dt.month - 3 else dt.month + 9
  let doy : Nat := (153 * mp + 2) / 5 + dt.day - 1
  let doe : Nat := yoe * 365 + yoe / 4 - yoe / 100 + doy
  era * 146097 + (doe : Int) - 719468

/-- A raw date cell before `pd.to_datetime`: either a numeric `a/b/y`
string (where `a`/`b` may be day or month), an unambiguous ISO value, or
an unparsable value. -/
inductive RawDate where
  | numeric (a b y : Nat)
  | iso (y : Int) (m d : Nat)
  | invalid (s : String)
deriving DecidableEq, Repr

/-- `pd.to_datetime(..., errors='coerce', dayfirst=True)` on one cell:
for an `a/b/y` value the first component is preferred as the day,
falling back to month-first only when day-first is invalid
(`src/tabs/tab_contratos.py` line 16). -/
def parseDayfirst : RawDate → Option Date
  | .numeric a b y =>
      if validDate y b a then some ⟨y, b, a⟩
      else if validDate y a b then some ⟨y, a, b⟩
      else none
  | .iso y m d => if validDate y m d then some ⟨y, m, d⟩ else none
  | .invalid _ => none

/-- `pd.to_datetime(..., errors='coerce')` with the pandas default
(month-first) on one cell: the first component is preferred as the
month, falling back to day-first when month-first is invalid
(`src/tabs/tab_contratos.py` line 23, `src/main.py` line 293). -/
def parseMonthfirst : RawDate → Option Date
  | .numeric a b y =>
      if validDate y a b then some ⟨y, a, b⟩
      else if validDate y b a then some ⟨y, b, a⟩
      else none
  | .iso y m d => if validDate y m d then some ⟨y, m, d⟩ else none
  | .invalid _ => none

/-- `.astype(str).str.replace(r'[^0-9]', '', regex=True)`: keep only the
digit characters of an identity cell. -/
def normalizeCedula (s : String) : String :=
  ⟨s.data.filter Char.isDigit⟩

/-- Python `str.isdigit`: nonempty and all characters are digits. -/
def pyIsDigit (s : String) : Bool :=
  decide (s.length > 0) && s.data.all Char.isDigit

/-- One raw row of the contributions ("aportaciones") table. Amounts
are modelled as exact integers (colones). -/
structure RawDonacion where
  cedula : String
  fecha : RawDate
  partido : Option String
  monto : Int
  nombre : String
deriving DecidableEq, Repr

/-- One raw row of a contracts table. -/
structure RawContrato where
  cedulaProveedor : String
  fechaNotificacion : RawDate
  nroContrato : String
deriving DecidableEq, Repr

/-- A normalized contribution row (valid parsed date). -/
structure Donacion where
  cedula : String
  fecha : Date
  partido : Option String
  monto : Int
  nombre : String
deriving DecidableEq, Repr

/-- A normalized contract row (valid parsed date, digits-only identity). -/
structure Contrato where
  cedula : String
  fecha : Date
  nro : String
deriving DecidableEq, Repr

/-- `src/main.py` lines 273-274: overwrite the `CÉDULA` column with its
digits-only normalization. -/
def limpiarCedulas (l : List RawDonacion) : List RawDonacion :=
  l.map (fun d => { d with cedula := normalizeCedula d.cedula })

/-- `src/main.py` line 277: the validity mask — normalized length 7, 8
or 9 and `str.isdigit`. -/
def validCedulaMask (s : String) : Bool :=
  (s.length == 7 || s.length == 8 || s.length == 9) && pyIsDigit s

/-- `src/main.py` lines 271-278: normalize contribution identities and
keep only rows passing the validity mask. -/
def filtrarAportaciones (l : List RawDonacion) : List RawDonacion :=
  (limpiarCedulas l).filter (fun d => validCedulaMask d.cedula)

/-- `src/tabs/tab_contratos.py` lines 16-19: parse the contract date
column day-first, normalize the provider identity to digits, drop rows
with an unparsable date, drop rows with an empty normalized identity. -/
def prepContratos (l : List RawContrato) : List Contrato :=
  (l.filterMap (fun c =>
    (parseDayfirst c.fechaNotificacion).map (fun dt =>
      { cedula := normalizeCedula c.cedulaProveedor, fecha := dt, nro := c.nroContrato }))).filter
    (fun c => decide (0 < c.cedula.length))

/-- `src/tabs/tab_contratos.py` lines 22-24: parse the contribution date
column (pandas default convention) and drop rows with an unparsable
date; the identity column is left as supplied. -/
def prepDonaciones (l : List RawDonacion) : List Donacion :=
  l.filterMap (fun d =>
    (parseMonthfirst d.fecha).map (fun dt =>
      { cedula := d.cedula, fecha := dt, partido := d.partido,
        monto := d.monto, nombre := d.nombre }))

/-- `abs((Fecha Notificación - FECHA).days)`: elapsed whole days between
the contract and the contribution. -/
def diferenciaDias (c : Contrato) (d : Donacion) : Nat :=
  (toEpochDays c.fecha - toEpochDays d.fecha).natAbs

/-- `diferencia_meses = diferencia_dias / 30.44` as an exact rational. -/
def diferenciaMeses (n : Nat) : ℚ :=
  (n : ℚ) / (3044 / 100)

/-- The window test `diferencia_meses <= ventana_meses`, phrased over the
naturals: `n / 30.44 ≤ v ↔ n * 100 ≤ v * 3044`. -/
def withinVentana (v n : Nat) : Bool :=
  n * 100 ≤ v * 3044

/-- `src/tabs/tab_contratos.py` line 30: restrict contracts to
providers whose identity also appears among the contributions. -/
def contratosConDonaciones (cs : List Contrato) (ds : List Donacion) : List Contrato :=
  cs.filter (fun c => ds.any (fun d => d.cedula == c.cedula))

/-- `src/tabs/tab_contratos.py` lines 33-39: the inner merge of the
filtered contracts with the contributions on the identity key. pandas
pairs each left row with every matching right row. -/
def mergedData (cs : List Contrato) (ds : List Donacion) : List (Contrato × Donacion) :=
  (contratosConDonaciones cs ds).flatMap (fun c =>
    (ds.filter (fun d => d.cedula == c.cedula)).map (fun d => (c, d)))

/-- `src/tabs/tab_contratos.py` lines 45-49: the AlertPair set before
aggregation — merged rows whose elapsed months fall inside the window. -/
def alertasData (cs : List Contrato) (ds : List Donacion) (v : Nat) :
    List (Contrato × Donacion) :=
  (mergedData cs ds).filter (fun p => withinVentana v (diferenciaDias p.1 p.2))

/-- The group-by key of the aggregation (`src/tabs/tab_contratos.py`
line 55): (Cédula Proveedor, Fecha Notificación, Nro Contrato). -/
def keyOf (p : Contrato × Donacion) : String × Date × String :=
  (p.1.cedula, p.1.fecha, p.1.nro)

/-- Insertion into a list sorted by `le`. -/
def insertBy (le : α → α → Bool) (a : α) : List α → List α
  | [] => [a]
  | b :: t => if le a b then a :: b :: t else b :: insertBy le a t

/-- Insertion sort by `le`; stands in for the sorting done by Python
`sorted` and pandas `sort_values`. -/
def sortBy (le : α → α → Bool) : List α → List α
  | [] => []
  | a :: t => insertBy le a (sortBy le t)

/-- Lexicographic comparison of strings by character code, modelling
Python string ordering. -/
def lexLe : List Char → List Char → Bool
  | [], _ => true
  | _ :: _, [] => false
  | a :: as, b :: bs =>
      if a.toNat < b.toNat then true
      else if b.toNat < a.toNat then false
      else lexLe as bs

/-- String order used by Python `sorted` over party names. -/
def strLe (a b : String) : Bool := lexLe a.data b.data

/-- Python `sorted(set(xs))`: distinct values in ascending order. -/
def sortedDedup (xs : List String) : List String :=
  sortBy strLe xs.dedup

/-- `', '.join(sorted(set(x.dropna())))` over the party column of a
group: null parties are dropped, the rest deduplicated, sorted and
joined (`src/tabs/tab_contratos.py` line 57). -/
def partidosStr (g : List (Contrato × Donacion)) : String :=
  String.intercalate ", " (sortedDedup (g.filterMap (fun p => p.2.partido)))

/-- One aggregated alert row (`src/tabs/tab_contratos.py` lines 55-69). -/
structure Alerta where
  cedula : String
  fechaContrato : Date
  nroContrato : String
  montoTotal : Int
  partidosDonados : String
  cantidadDonaciones : Nat
  nombreContribuyente : String
  anioContrato : Int
deriving DecidableEq, Repr

/-- The rows of an AlertPair collection falling in one group. -/
def groupRows (rows : List (Contrato × Donacion)) (k : String × Date × String) :
    List (Contrato × Donacion) :=
  rows.filter (fun p => decide (keyOf p = k))

/-- The aggregated alert of one group: sum of amounts, joined distinct
parties, contribution count, first contributor name, and the contract
year taken from the group key's date. -/
def mkAlerta (rows : List (Contrato × Donacion)) (k : String × Date × String) : Alerta :=
  let g := groupRows rows k
  { cedula := k.1
    fechaContrato := k.2.1
    nroContrato := k.2.2
    montoTotal := (g.map (fun p => p.2.monto)).sum
    partidosDonados := partidosStr g
    cantidadDonaciones := g.length
    nombreContribuyente := (g.head?.map (fun p => p.2.nombre)).getD ""
    anioContrato := k.2.1.year }

/-- The group-by key of an aggregated alert. -/
def keyA (a : Alerta) : String × Date × String :=
  (a.cedula, a.fechaContrato, a.nroContrato)

/-- `groupby([...]).agg(...)` over the AlertPair collection: one
aggregated alert per distinct (cédula, fecha, nro) key. -/
def agruparAlertas (rows : List (Contrato × Donacion)) : List Alerta :=
  ((rows.map keyOf).dedup).map (mkAlerta rows)

/-- `_detectar_alertas_temporales` end to end: normalize both tables,
join, filter by window, aggregate. -/
def detectarAlertasTemporales (cs : List RawContrato) (ds : List RawDonacion)
    (v : Nat) : List Alerta :=
  agruparAlertas (alertasData (prepContratos cs) (prepDonaciones ds) v)

/-- The full analysis path of `src/main.py`: contribution identities are
cleaned and length-filtered in `main` before detection. -/
def pipelineAlertas (cs : List RawContrato) (ds : List RawDonacion) (v : Nat) :
    List Alerta :=
  detectarAlertasTemporales cs (filtrarAportaciones ds) v

/-- The caller-visible state of one contract row after
`_detectar_alertas_temporales` returns: the date cell holds the parsed
value (null when unparsable) and the identity cell holds the digits-only
normalization. -/
structure ContratoMut where
  fechaNotificacion : Option Date
  cedulaProveedor : String
  nroContrato : String
deriving DecidableEq, Repr

/-- Caller-visible effect of `_detectar_alertas_temporales` on the
contracts table it is passed: lines 16-17 of
`src/tabs/tab_contratos.py` assign the parsed date column and the
normalized identity column in place on the argument dataframe (the
later `dropna`/`filter` steps rebind a local name and are not visible to
the caller). -/
def contratosAfterDetectar (l : List RawContrato) : List ContratoMut :=
  l.map (fun c =>
    { fechaNotificacion := parseDayfirst c.fechaNotificacion
      cedulaProveedor := normalizeCedula c.cedulaProveedor
      nroContrato := c.nroContrato })

/-- Caller-visible effect of `_detectar_alertas_temporales` on the
contributions table it is passed: line 22 of
`src/tabs/tab_contratos.py` copies the dataframe before any
modification, so the caller's table is returned unchanged. -/
def donacionesAfterDetectar (l : List RawDonacion) : List RawDonacion :=
  l

/-- Distinct contract numbers held by one identity in a contract table
(`nunique` of `Nro Contrato` per `Cédula Proveedor`). -/
def totalContractsFor (cs : List Contrato) (ced : String) : Nat :=
  (((cs.filter (fun c => c.cedula == ced)).map (fun c => c.nro)).dedup).length

/-- Distinct alerted contract numbers held by one identity in an alert
collection. -/
def alertContractsFor (alerts : List Alerta) (ced : String) : Nat :=
  (((alerts.filter (fun a => a.cedula == ced)).map (fun a => a.nroContrato)).dedup).length

/-- Modelled from the spec: the SuspicionRanker component (spec §4.7) has
no implementation under `src/` — only the alert and contract tables it
consumes are built there. Per the spec:
`score = 100 * alert_contracts / total_contracts`, and 0 when
`total_contracts` is 0. -/
def suspicionScore (alerts : List Alerta) (cs : List Contrato) (ced : String) : ℚ :=
  if totalContractsFor cs ced = 0 then 0
  else 100 * (alertContractsFor alerts ced : ℚ) / (totalContractsFor cs ced : ℚ)

/-- Modelled from the spec: the classification bands of spec §4.7 —
score ≥ 80 is CRITICAL, 60 ≤ score < 80 is HIGH, otherwise MEDIUM. -/
def clasificacion (q : ℚ) : String :=
  if 80 ≤ q then "CRITICAL" else if 60 ≤ q then "HIGH" else "MEDIUM"

/-- `src/tabs/tab_contratos.py` lines 361-366: per-identity distinct
contract counts, sorted descending by count. -/
def todosProveedores (cs : List Contrato) : List (String × Nat) :=
  sortBy (fun a b => Nat.ble b.2 a.2)
    (((cs.map (fun c => c.cedula)).dedup).map (fun ced => (ced, totalContractsFor cs ced)))

/-- Grand total of distinct contracts across all identities
(`src/tabs/tab_contratos.py` line 369). -/
def totalContratos (cs : List Contrato) : Nat :=
  ((todosProveedores cs).map (fun p => p.2)).sum

/-- Contracts held by the top-10 identities
(`src/tabs/tab_contratos.py` line 370). -/
def top10Contratos (cs : List Contrato) : Nat :=
  (((todosProveedores cs).take 10).map (fun p => p.2)).sum

/-- Contracts held by identities ranked 11-50
(`src/tabs/tab_contratos.py` line 371, `iloc[10:50]` guarded by
`len > 10`). -/
def top1150Contratos (cs : List Contrato) : Nat :=
  if 10 < (todosProveedores cs).length then
    ((((todosProveedores cs).drop 10).take 40).map (fun p => p.2)).sum
  else 0

/-- Contracts held by identities ranked 51 and beyond, computed as the
remainder (`src/tabs/tab_contratos.py` line 372). -/
def restoContratos (cs : List Contrato) : Nat :=
  totalContratos cs - top10Contratos cs - top1150Contratos cs

/-- Substring test over character lists, modelling Python `in` on
strings. -/
def hasSub (pat : List Char) : List Char → Bool
  | [] => pat.isEmpty
  | c :: rest => pat.isPrefixOf (c :: rest) || hasSub pat rest

/-- Python `str.lower` restricted to the characters arising in the
analysed headers: ASCII letters and Spanish accented letters. -/
def charLower (c : Char) : Char :=
  if c = 'Á' then 'á' else if c = 'É' then 'é' else if c = 'Í' then 'í'
  else if c = 'Ó' then 'ó' else if c = 'Ú' then 'ú' else if c = 'Ñ' then 'ñ'
  else c.toLower

/-- Python `str.lower` on a column name. -/
def strLower (s : String) : String :=
  ⟨s.data.map charLower⟩

/-- `src/main.py` line 109: a column name holds the date column when its
lowercase form contains "fecha" or "notif". -/
def esColFecha (col : String) : Bool :=
  hasSub "fecha".data (strLower col).data || hasSub "notif".data (strLower col).data

/-- `src/main.py` line 120: a column name holds the provider identity
when its lowercase form contains "cédula", "cedula" or "proveedor". -/
def esColCedula (col : String) : Bool :=
  hasSub "cédula".data (strLower col).data || hasSub "cedula".data (strLower col).data ||
    hasSub "proveedor".data (strLower col).data

/-- Outcome of column resolution in `preparar_contratos`
(`src/main.py` lines 99-132): a named failure for a missing date or
identity column, or the renamed header row. -/
inductive PrepContratosResult where
  | errorFecha
  | errorCedula
  | ok (cols : List String)
deriving DecidableEq, Repr

/-- `preparar_contratos` restricted to its column-resolution behaviour:
find the first date-like and the first identity-like column name, report
a named failure when one is missing, otherwise rename the two resolved
columns to the canonical fields (`df.rename`; when both patterns match
the same column the identity rename wins, as the later entry of the
Python rename dict). -/
def prepararContratosCols (cols : List String) : PrepContratosResult :=
  match cols.find? esColFecha with
  | none => .errorFecha
  | some f =>
    match cols.find? esColCedula with
    | none => .errorCedula
    | some c =>
      .ok (cols.map (fun col =>
        if col = c then "cedula_proveedor"
        else if col = f then "fecha_notificacion"
        else col))

/-! ## Fixtures used by witness theorems -/

/-- Witness contribution (spec §8 scenario). -/
def donW : Donacion := ⟨"101234567", ⟨2020, 1, 10⟩, some "A", 1000, "N"⟩

/-- Witness contract (spec §8 scenario). -/
def conW : Contrato := ⟨"101234567", ⟨2020, 6, 15⟩, "C1"⟩

/-- A second witness contract carrying the same contract number as
`conW` under a different notification date. -/
def conW2 : Contrato := ⟨"101234567", ⟨2020, 7, 15⟩, "C1"⟩

/-- Witness AlertPair collection (one contract, one contribution). -/
def rowsW : List (Contrato × Donacion) := alertasData [conW] [donW] 6

/-- The group key of the witness pair. -/
def keyW : String × Date × String := ("101234567", ⟨2020, 6, 15⟩, "C1")

/-- Raw witness contribution row (hyphenated identity). -/
def rawDonW : RawDonacion := ⟨"1-01234567", .iso 2020 1 10, some "A", 1000, "N"⟩

/-- Raw witness contract row. -/
def rawConW : RawContrato := ⟨"101234567", .iso 2020 6 15, "C1"⟩

/-- The aggregated alert of the witness scenario. -/
def alertW : Alerta := ⟨"101234567", ⟨2020, 6, 15⟩, "C1", 1000, "A", 1, "N", 2020⟩

/-! ## Helper lemmas about the join -/

/-- The window test coincides with the rational bound
`elapsed_days / 30.44 ≤ window`. -/
theorem withinVentana_iff (v n : Nat) :
    withinVentana v n = true ↔ diferenciaMeses n ≤ (v : ℚ) := by
  unfold withinVentana diferenciaMeses
  rw [decide_eq_true_iff, div_le_iff₀ (by norm_num : (0:ℚ) < 3044 / 100)]
  rw [show ((v : ℚ) * (3044 / 100)) = ((v : ℚ) * 3044) / 100 by ring]
  rw [le_div_iff₀ (by norm_num : (0:ℚ) < 100)]
  exact_mod_cast Iff.rfl

/-- Membership in the merged (pre-window) pair collection. -/
theorem mem_mergedData {cs : List Contrato} {ds : List Donacion}
    {c : Contrato} {d : Donacion} :
    (c, d) ∈ mergedData cs ds ↔ c ∈ cs ∧ d ∈ ds ∧ d.cedula = c.cedula := by
  unfold mergedData contratosConDonaciones
  simp only [List.mem_flatMap, List.mem_filter, List.mem_map, List.any_eq_true,
    beq_iff_eq, Prod.mk.injEq]
  constructor
  · rintro ⟨c', ⟨hc', -⟩, d', ⟨hd', hced⟩, hcc, hdd⟩
    subst hcc; subst hdd
    exact ⟨hc', hd', hced⟩
  · rintro ⟨hc, hd, hced⟩
    exact ⟨c, ⟨hc, d, hd, hced⟩, d, ⟨hd, hced⟩, rfl, rfl⟩

/-- The merged pair collection has no duplicate pairs when neither input
table does. -/
theorem nodup_mergedData {cs : List Contrato} {ds : List Donacion}
    (hc : cs.Nodup) (hd : ds.Nodup) : (mergedData cs ds).Nodup := by
  unfold mergedData contratosConDonaciones
  rw [List.nodup_flatMap]
  refine ⟨fun c _ => ?_, ?_⟩
  · exact (hd.filter _).map (fun x y h => (Prod.ext_iff.mp h).2)
  · refine (hc.filter _).imp ?_
    intro a b hab x hxa hxb
    rcases List.mem_map.mp hxa with ⟨da, -, rfl⟩
    rcases List.mem_map.mp hxb with ⟨db, -, hx⟩
    exact hab (Prod.ext_iff.mp hx).1.symm

/-- Membership in the AlertPair collection. -/
theorem mem_alertasData {cs : List Contrato} {ds : List Donacion} {v : Nat}
    {c : Contrato} {d : Donacion} :
    (c, d) ∈ alertasData cs ds v ↔
      c ∈ cs ∧ d ∈ ds ∧ d.cedula = c.cedula ∧
        diferenciaMeses (diferenciaDias c d) ≤ (v : ℚ) := by
  unfold alertasData
  rw [List.mem_filter, mem_mergedData, withinVentana_iff]
  tauto

/-! ## C1: join correctness of the temporal-alert engine -/

/-- C1: over duplicate-free normalized tables, a (contract,
contribution) pair lies in the AlertPair collection exactly when both
records are input rows sharing an identity and their elapsed months
`|contract_date - contribution_date| / 30.44` fall inside the window;
the collection is duplicate-free, so each qualifying pair appears
exactly once, and every pair's identity lies in both tables. -/
theorem alertasData_join_correct (cs : List Contrato) (ds : List Donacion) (v : Nat)
    (hc : cs.Nodup) (hd : ds.Nodup) (c : Contrato) (d : Donacion) :
    (alertasData cs ds v).Nodup ∧
      ((c, d) ∈ alertasData cs ds v ↔
        c ∈ cs ∧ d ∈ ds ∧ d.cedula = c.cedula ∧
          diferenciaMeses (diferenciaDias c d) ≤ (v : ℚ)) := by
  exact ⟨(nodup_mergedData hc hd).filter _, mem_alertasData⟩

/-- Witness for C1 on the spec §8 scenario. -/
theorem alertasData_join_correct_witness :
    (alertasData [conW] [donW] 6).Nodup ∧
      ((conW, donW) ∈ alertasData [conW] [donW] 6 ↔
        conW ∈ [conW] ∧ donW ∈ [donW] ∧ donW.cedula = conW.cedula ∧
          diferenciaMeses (diferenciaDias conW donW) ≤ (6 : ℚ)) :=
  alertasData_join_correct [conW] [donW] 6 (by decide) (by decide) conW donW

/-! ## C2: window monotonicity -/

/-- C2: widening the window only adds alert pairs — every pair produced
with window `v1` is produced with any window `v2 ≥ v1` on the same
inputs. -/
theorem alertasData_ventana_mono (cs : List Contrato) (ds : List Donacion)
    (v1 v2 : Nat) (h : v1 ≤ v2) (p : Contrato × Donacion)
    (hp : p ∈ alertasData cs ds v1) : p ∈ alertasData cs ds v2 := by
  unfold alertasData at hp ⊢
  rw [List.mem_filter] at hp ⊢
  refine ⟨hp.1, ?_⟩
  rw [withinVentana_iff] at hp ⊢
  exact hp.2.trans (by exact_mod_cast h)

/-- Witness for C2: a pair alerted at 6 months is alerted at 7. -/
theorem alertasData_ventana_mono_witness :
    (conW, donW) ∈ alertasData [conW] [donW] 7 :=
  alertasData_ventana_mono [conW] [donW] 6 7 (by decide) (conW, donW) (by decide)

/-! ## Helper lemmas about sorting and grouping -/

/-- Inserting into a list yields a permutation of consing. -/
theorem insertBy_perm (le : α → α → Bool) (a : α) (l : List α) :
    (insertBy le a l).Perm (a :: l) := by
  induction l with
  | nil => exact List.Perm.refl _
  | cons b t ih =>
      unfold insertBy
      by_cases h : le a b = true
      · rw [if_pos h]
      · rw [if_neg h]
        exact (List.Perm.cons b ih).trans (List.Perm.swap a b t)

/-- Insertion sort permutes its input. -/
theorem sortBy_perm (le : α → α → Bool) (l : List α) :
    (sortBy le l).Perm l := by
  induction l with
  | nil => exact List.Perm.refl _
  | cons a t ih =>
      exact (insertBy_perm le a (sortBy le t)).trans (List.Perm.cons a ih)

/-- The group key of an aggregated alert is the key it was built from. -/
theorem keyA_mkAlerta (rows : List (Contrato × Donacion)) (k : String × Date × String) :
    keyA (mkAlerta rows k) = k := rfl

/-- The aggregation emits the alerts of the distinct keys, in order. -/
theorem agruparAlertas_filter_key (rows : List (Contrato × Donacion))
    (k : String × Date × String) (hk : k ∈ rows.map keyOf) :
    ((agruparAlertas rows).filter (fun a => decide (keyA a = k))).length = 1 := by
  unfold agruparAlertas
  rw [List.filter_map]
  rw [List.length_map]
  have hcomp : ((fun a => decide (keyA a = k)) ∘ mkAlerta rows)
      = (fun k' => decide (k' = k)) := by
    funext k'
    simp [Function.comp, keyA_mkAlerta]
  rw [hcomp]
  rw [← List.countP_eq_length_filter]
  have hcount : List.countP (fun k' => decide (k' = k)) (rows.map keyOf).dedup
      = @List.count _ instBEqOfDecidableEq k (rows.map keyOf).dedup := rfl
  rw [hcount]
  exact List.count_eq_one_of_mem (List.nodup_dedup _) (List.mem_dedup.mpr hk)

/-! ## C3: alert aggregation -/

/-- C3 counterexample: the aggregator does NOT emit one alert per
distinct (identity, contract_number) key — it groups by (identity,
contract_date, contract_number), so the same contract number under two
notification dates yields two alerts for one (identity, number) key. -/
theorem agruparAlertas_por_numero_counterexample :
    ¬ (((agruparAlertas (alertasData [conW, conW2] [donW] 12)).filter
        (fun a => decide (a.cedula = "101234567" ∧ a.nroContrato = "C1"))).length = 1) := by
  decide

/-- C3 amended: the aggregator emits exactly one alert per distinct
(identity, contract_date, contract_number) key of the AlertPair
collection — one alert per key present, and as many alerts as distinct
keys — and the alert of each group carries the sum of the grouped
contribution amounts, the number of grouped pairs, the deduplicated
sorted distinct party affiliations joined into one string, and the
contract year of the group's contract date. -/
theorem agruparAlertas_correct (rows : List (Contrato × Donacion))
    (k : String × Date × String) (hk : k ∈ rows.map keyOf) :
    ((agruparAlertas rows).filter (fun a => decide (keyA a = k))).length = 1 ∧
    (agruparAlertas rows).length = ((rows.map keyOf).dedup).length ∧
    mkAlerta rows k ∈ agruparAlertas rows ∧
    (mkAlerta rows k).montoTotal = ((groupRows rows k).map (fun p => p.2.monto)).sum ∧
    (mkAlerta rows k).cantidadDonaciones = (groupRows rows k).length ∧
    (mkAlerta rows k).partidosDonados =
      String.intercalate ", "
        (sortedDedup ((groupRows rows k).filterMap (fun p => p.2.partido))) ∧
    (mkAlerta rows k).anioContrato = k.2.1.year := by
  refine ⟨agruparAlertas_filter_key rows k hk, ?_, ?_, rfl, rfl, rfl, rfl⟩
  · unfold agruparAlertas
    rw [List.length_map]
  · unfold agruparAlertas
    exact List.mem_map_of_mem (mkAlerta rows) (List.mem_dedup.mpr hk)

/-- Witness for C3 on the spec §8 scenario. -/
theorem agruparAlertas_correct_witness :
    ((agruparAlertas rowsW).filter (fun a => decide (keyA a = keyW))).length = 1 ∧
    (agruparAlertas rowsW).length = ((rowsW.map keyOf).dedup).length ∧
    mkAlerta rowsW keyW ∈ agruparAlertas rowsW ∧
    (mkAlerta rowsW keyW).montoTotal
      = ((groupRows rowsW keyW).map (fun p => p.2.monto)).sum ∧
    (mkAlerta rowsW keyW).cantidadDonaciones = (groupRows rowsW keyW).length ∧
    (mkAlerta rowsW keyW).partidosDonados =
      String.intercalate ", "
        (sortedDedup ((groupRows rowsW keyW).filterMap (fun p => p.2.partido))) ∧
    (mkAlerta rowsW keyW).anioContrato = keyW.2.1.year :=
  agruparAlertas_correct rowsW keyW (by decide)

/-! ## C10: null party affiliations in the aggregation -/

/-- `filterMap` keeps exactly the rows whose projection is non-null. -/
theorem length_filterMap_isSome (f : α → Option β) (l : List α) :
    (l.filterMap f).length = (l.filter (fun a => (f a).isSome)).length := by
  induction l with
  | nil => rfl
  | cons a t ih =>
      cases h : f a <;>
        simp [List.filterMap_cons, h, List.filter_cons, ih]

/-- Membership in the sorted deduplicated party sequence. -/
theorem mem_sortedDedup {s : String} {l : List String} :
    s ∈ sortedDedup l ↔ s ∈ l := by
  unfold sortedDedup
  rw [(sortBy_perm strLe l.dedup).mem_iff, List.mem_dedup]

/-- C10: inside one aggregation group, a contribution with a null party
affiliation still counts towards the group's contribution count and
amount sum, but the party sequence joined into the alert's party string
holds exactly the non-null affiliations, deduplicated — so whenever some
grouped contribution has a null party, the alert lists fewer parties
than contributions. -/
theorem partidosNulos_excluidos (rows : List (Contrato × Donacion))
    (k : String × Date × String) (s : String) :
    (mkAlerta rows k).cantidadDonaciones = (groupRows rows k).length ∧
    (mkAlerta rows k).montoTotal = ((groupRows rows k).map (fun p => p.2.monto)).sum ∧
    (mkAlerta rows k).partidosDonados =
      String.intercalate ", "
        (sortedDedup ((groupRows rows k).filterMap (fun p => p.2.partido))) ∧
    (s ∈ sortedDedup ((groupRows rows k).filterMap (fun p => p.2.partido)) ↔
      some s ∈ (groupRows rows k).map (fun p => p.2.partido)) ∧
    (sortedDedup ((groupRows rows k).filterMap (fun p => p.2.partido))).length ≤
      ((groupRows rows k).filter (fun p => p.2.partido.isSome)).length ∧
    (((groupRows rows k).filter (fun p => p.2.partido.isSome)).length <
        (groupRows rows k).length →
      (sortedDedup ((groupRows rows k).filterMap (fun p => p.2.partido))).length <
        (mkAlerta rows k).cantidadDonaciones) := by
  have hlen : (sortedDedup ((groupRows rows k).filterMap (fun p => p.2.partido))).length ≤
      ((groupRows rows k).filter (fun p => p.2.partido.isSome)).length := by
    unfold sortedDedup
    rw [(sortBy_perm strLe _).length_eq]
    calc ((groupRows rows k).filterMap (fun p => p.2.partido)).dedup.length
        ≤ ((groupRows rows k).filterMap (fun p => p.2.partido)).length :=
          (List.dedup_sublist _).length_le
      _ = ((groupRows rows k).filter (fun p => p.2.partido.isSome)).length :=
          length_filterMap_isSome _ _
  refine ⟨rfl, rfl, rfl, ?_, hlen, fun hlt => lt_of_le_of_lt hlen hlt⟩
  rw [mem_sortedDedup, List.mem_filterMap, List.mem_map]

/-! ## C4: contribution identity validity filter -/

/-- Passing the validity mask forces canonical length 7, 8 or 9. -/
theorem validCedulaMask_length {s : String} (h : validCedulaMask s = true) :
    s.length = 7 ∨ s.length = 8 ∨ s.length = 9 := by
  unfold validCedulaMask at h
  simp only [Bool.and_eq_true, Bool.or_eq_true, beq_iff_eq] at h
  tauto

/-- Every aggregated alert is built from some alert pair of the rows. -/
theorem mem_agruparAlertas_exists {rows : List (Contrato × Donacion)} {a : Alerta}
    (ha : a ∈ agruparAlertas rows) :
    ∃ p ∈ rows, a.cedula = p.1.cedula ∧ a.fechaContrato = p.1.fecha ∧
      a.nroContrato = p.1.nro := by
  unfold agruparAlertas at ha
  rcases List.mem_map.mp ha with ⟨k, hk, rfl⟩
  rcases List.mem_map.mp (List.mem_dedup.mp hk) with ⟨p, hp, rfl⟩
  exact ⟨p, hp, rfl, rfl, rfl⟩

/-- Every normalized contribution row stems from a raw row with the same
identity and a successfully parsed date. -/
theorem mem_prepDonaciones_exists {l : List RawDonacion} {d : Donacion}
    (h : d ∈ prepDonaciones l) :
    ∃ d0 ∈ l, d.cedula = d0.cedula ∧ parseMonthfirst d0.fecha = some d.fecha := by
  unfold prepDonaciones at h
  rcases List.mem_filterMap.mp h with ⟨d0, hd0, hparse⟩
  cases hp : parseMonthfirst d0.fecha with
  | none => rw [hp] at hparse; cases hparse
  | some dt =>
      rw [hp] at hparse
      cases hparse
      exact ⟨d0, hd0, rfl, by rw [hp]⟩

/-- Every normalized contract row stems from a raw row with the
normalized identity and a successfully parsed date. -/
theorem mem_prepContratos_exists {l : List RawContrato} {c : Contrato}
    (h : c ∈ prepContratos l) :
    ∃ c0 ∈ l, c.cedula = normalizeCedula c0.cedulaProveedor ∧
      parseDayfirst c0.fechaNotificacion = some c.fecha ∧ c.nro = c0.nroContrato := by
  unfold prepContratos at h
  have h' := (List.mem_filter.mp h).1
  rcases List.mem_filterMap.mp h' with ⟨c0, hc0, hparse⟩
  cases hp : parseDayfirst c0.fechaNotificacion with
  | none => rw [hp] at hparse; cases hparse
  | some dt =>
      rw [hp] at hparse
      cases hparse
      exact ⟨c0, hc0, rfl, by rw [hp], rfl⟩

/-- C4: identity normalization keeps only digits; the kept contribution
rows have canonical length 7, 8 or 9; and every alert produced by the
full pipeline carries such an identity — so a contribution whose
canonical identity has any other length (such as the 5-digit "12345")
yields no alert even when a matching contract exists. -/
theorem cedulasInvalidas_sin_alertas (s : String) (cs : List RawContrato)
    (ds : List RawDonacion) (v : Nat) (d : RawDonacion) (a : Alerta)
    (ha : a ∈ pipelineAlertas cs ds v) :
    (normalizeCedula s).data.all Char.isDigit = true ∧
    (d ∈ filtrarAportaciones ds →
      d.cedula.length = 7 ∨ d.cedula.length = 8 ∨ d.cedula.length = 9) ∧
    (a.cedula.length = 7 ∨ a.cedula.length = 8 ∨ a.cedula.length = 9) := by
  refine ⟨?_, ?_, ?_⟩
  · unfold normalizeCedula
    simp only [List.all_eq_true]
    intro x hx
    exact (List.mem_filter.mp hx).2
  · intro hd
    exact validCedulaMask_length (List.mem_filter.mp hd).2
  · unfold pipelineAlertas detectarAlertasTemporales at ha
    rcases mem_agruparAlertas_exists ha with ⟨p, hp, hced, -, -⟩
    have hmem := mem_alertasData.mp hp
    rcases mem_prepDonaciones_exists hmem.2.1 with ⟨d0, hd0, hced2, -⟩
    have hmask := (List.mem_filter.mp hd0).2
    have hlen := validCedulaMask_length hmask
    rw [hced, ← hmem.2.2.1, hced2]
    exact hlen

/-- Witness for C4 on the spec §8 scenario. -/
theorem cedulasInvalidas_sin_alertas_witness :
    (normalizeCedula "1-2x3").data.all Char.isDigit = true ∧
    (⟨"101234567", .iso 2020 1 10, some "A", 1000, "N"⟩ ∈
        filtrarAportaciones [rawDonW] →
      ("101234567" : String).length = 7 ∨ ("101234567" : String).length = 8 ∨
        ("101234567" : String).length = 9) ∧
    (alertW.cedula.length = 7 ∨ alertW.cedula.length = 8 ∨ alertW.cedula.length = 9) :=
  cedulasInvalidas_sin_alertas "1-2x3" [rawConW] [rawDonW] 6
    ⟨"101234567", .iso 2020 1 10, some "A", 1000, "N"⟩ alertW (by decide)

/-! ## C5: frame effect of the analysis on its input tables -/

/-- C5 counterexample: the contracts table passed to
`_detectar_alertas_temporales` is mutated — its identity column differs
after the call (a hyphenated identity has been normalized in place). -/
theorem detectar_muta_contratos_counterexample :
    (contratosAfterDetectar [⟨"1-23", .iso 2020 1 1, "C1"⟩]).map
        (fun c => c.cedulaProveedor) ≠
      [(⟨"1-23", .iso 2020 1 1, "C1"⟩ : RawContrato)].map
        (fun c => c.cedulaProveedor) := by
  decide

/-- C5 amended: the contributions table is never mutated (the function
copies it before normalizing), while the contracts table passed in keeps
its row count and its contract-number column but has its date column
replaced by the parsed dates and its identity column replaced by the
digits-only normalization. -/
theorem detectar_efecto_en_entradas (cs : List RawContrato) (ds : List RawDonacion) :
    donacionesAfterDetectar ds = ds ∧
    (contratosAfterDetectar cs).length = cs.length ∧
    (contratosAfterDetectar cs).map (fun c => c.nroContrato)
      = cs.map (fun c => c.nroContrato) ∧
    (contratosAfterDetectar cs).map (fun c => c.cedulaProveedor)
      = cs.map (fun c => normalizeCedula c.cedulaProveedor) ∧
    (contratosAfterDetectar cs).map (fun c => c.fechaNotificacion)
      = cs.map (fun c => parseDayfirst c.fechaNotificacion) := by
  refine ⟨rfl, ?_, ?_, ?_, ?_⟩ <;>
    simp [contratosAfterDetectar]

/-! ## C8: date normalization conventions and null-date dropping -/

/-- C8 counterexample: contribution dates are NOT parsed day-first — the
ambiguous value 3/4/2020 becomes March 4 in the normalized contributions
table, while the day-first reading (used only for contracts) is April 3. -/
theorem fechasDonacionesDayfirst_counterexample :
    prepDonaciones [⟨"101234567", .numeric 3 4 2020, some "A", 1000, "N"⟩]
      = [⟨"101234567", ⟨2020, 3, 4⟩, some "A", 1000, "N"⟩] ∧
    parseDayfirst (RawDate.numeric 3 4 2020) = some ⟨2020, 4, 3⟩ := by
  decide

/-- C8 amended: contract dates are parsed day-first and contribution
dates month-first (the pandas default) on ambiguous values; unparsable
values parse to null; and rows with a null date are dropped before the
join, so both dates of every AlertPair arise from a successful parse of
an input row. -/
theorem fechas_normalizacion (a b y : Nat) (s : String)
    (h1 : validDate y b a = true) (h2 : validDate y a b = true)
    (cs : List RawContrato) (ds : List RawDonacion) (v : Nat)
    (p : Contrato × Donacion)
    (hp : p ∈ alertasData (prepContratos cs) (prepDonaciones ds) v) :
    parseDayfirst (RawDate.numeric a b y) = some ⟨y, b, a⟩ ∧
    parseMonthfirst (RawDate.numeric a b y) = some ⟨y, a, b⟩ ∧
    parseDayfirst (RawDate.invalid s) = none ∧
    parseMonthfirst (RawDate.invalid s) = none ∧
    some p.1.fecha ∈ cs.map (fun c0 => parseDayfirst c0.fechaNotificacion) ∧
    some p.2.fecha ∈ ds.map (fun d0 => parseMonthfirst d0.fecha) := by
  have hmem := mem_alertasData.mp hp
  rcases mem_prepContratos_exists hmem.1 with ⟨c0, hc0, -, hcp, -⟩
  rcases mem_prepDonaciones_exists hmem.2.1 with ⟨d0, hd0, -, hdp⟩
  refine ⟨?_, ?_, rfl, rfl, ?_, ?_⟩
  · simp only [parseDayfirst]
    rw [if_pos h1]
  · simp only [parseMonthfirst]
    rw [if_pos h2]
  · exact List.mem_map.mpr ⟨c0, hc0, hcp⟩
  · exact List.mem_map.mpr ⟨d0, hd0, hdp⟩

/-- Witness for C8 on an ambiguous 3/4/2020 value and the spec §8
scenario pair. -/
theorem fechas_normalizacion_witness :
    parseDayfirst (RawDate.numeric 3 4 2020) = some ⟨2020, 4, 3⟩ ∧
    parseMonthfirst (RawDate.numeric 3 4 2020) = some ⟨2020, 3, 4⟩ ∧
    parseDayfirst (RawDate.invalid "n/a") = none ∧
    parseMonthfirst (RawDate.invalid "n/a") = none ∧
    some (conW, donW).1.fecha ∈
      [rawConW].map (fun c0 => parseDayfirst c0.fechaNotificacion) ∧
    some (conW, donW).2.fecha ∈
      [(⟨"101234567", .iso 2020 1 10, some "A", 1000, "N"⟩ : RawDonacion)].map
        (fun d0 => parseMonthfirst d0.fecha) :=
  fechas_normalizacion 3 4 2020 "n/a" (by decide) (by decide) [rawConW]
    [⟨"101234567", .iso 2020 1 10, some "A", 1000, "N"⟩] 6 (conW, donW) (by decide)

/-! ## C9: column-resolution failure handling -/

/-- C9: when no date-like column exists (and hence also when neither
required column exists) the resolver yields the named date failure and
no normalized table; when both columns are found they match the
substring heuristics, occur in the header, and the result is the header
with the two resolved columns renamed to the canonical fields. -/
theorem prepararContratosCols_correct (cols cols2 : List String) (f c : String)
    (hf : cols.find? esColFecha = some f) (hc : cols.find? esColCedula = some c) :
    esColFecha f = true ∧ esColCedula c = true ∧ f ∈ cols ∧ c ∈ cols ∧
    prepararContratosCols cols = .ok (cols.map (fun col =>
      if col = c then "cedula_proveedor"
      else if col = f then "fecha_notificacion"
      else col)) ∧
    (cols2.find? esColFecha = none → cols2.find? esColCedula = none →
      prepararContratosCols cols2 = .errorFecha) := by
  refine ⟨List.find?_some hf, List.find?_some hc, List.mem_of_find?_eq_some hf,
    List.mem_of_find?_eq_some hc, ?_, ?_⟩
  · unfold prepararContratosCols
    rw [hf, hc]
  · intro h2 _
    unfold prepararContratosCols
    rw [h2]

/-- Witness for C9 on a real contracts header. -/
theorem prepararContratosCols_correct_witness :
    esColFecha "Fecha Notificación" = true ∧ esColCedula "Cédula Proveedor" = true ∧
    "Fecha Notificación" ∈ ["Fecha Notificación", "Cédula Proveedor", "Nro Contrato"] ∧
    "Cédula Proveedor" ∈ ["Fecha Notificación", "Cédula Proveedor", "Nro Contrato"] ∧
    prepararContratosCols ["Fecha Notificación", "Cédula Proveedor", "Nro Contrato"]
      = .ok (["Fecha Notificación", "Cédula Proveedor", "Nro Contrato"].map (fun col =>
        if col = "Cédula Proveedor" then "cedula_proveedor"
        else if col = "Fecha Notificación" then "fecha_notificacion"
        else col)) ∧
    (["Monto", "Objeto"].find? esColFecha = none →
      ["Monto", "Objeto"].find? esColCedula = none →
      prepararContratosCols ["Monto", "Objeto"] = .errorFecha) :=
  prepararContratosCols_correct ["Fecha Notificación", "Cédula Proveedor", "Nro Contrato"]
    ["Monto", "Objeto"] "Fecha Notificación" "Cédula Proveedor" (by decide) (by decide)

/-! ## C6: suspicion score definition, bounds and classification -/

/-- C6: whenever every alerted contract of an identity occurs among that
identity's contracts, the suspicion score equals
`100 * alert_contracts / total_contracts`, is 0 on a zero denominator
rather than an error, lies between 0 and 100, and classifies as
CRITICAL at 80 and above, HIGH from 60 up to 80, and MEDIUM below 60. -/
theorem suspicionScore_correct (alerts : List Alerta) (cs : List Contrato) (ced : String)
    (h : ∀ a ∈ alerts, a.cedula = ced →
      a.nroContrato ∈ (cs.filter (fun c => c.cedula == ced)).map (fun c => c.nro)) :
    suspicionScore alerts cs ced =
      (if totalContractsFor cs ced = 0 then 0
       else 100 * (alertContractsFor alerts ced : ℚ) / (totalContractsFor cs ced : ℚ)) ∧
    (totalContractsFor cs ced = 0 → suspicionScore alerts cs ced = 0) ∧
    0 ≤ suspicionScore alerts cs ced ∧
    suspicionScore alerts cs ced ≤ 100 ∧
    (80 ≤ suspicionScore alerts cs ced →
      clasificacion (suspicionScore alerts cs ced) = "CRITICAL") ∧
    (60 ≤ suspicionScore alerts cs ced → suspicionScore alerts cs ced < 80 →
      clasificacion (suspicionScore alerts cs ced) = "HIGH") ∧
    (suspicionScore alerts cs ced < 60 →
      clasificacion (suspicionScore alerts cs ced) = "MEDIUM") := by
  have hsub : ∀ x ∈ (alerts.filter (fun a => a.cedula == ced)).map (fun a => a.nroContrato),
      x ∈ (cs.filter (fun c => c.cedula == ced)).map (fun c => c.nro) := by
    intro x hx
    rcases List.mem_map.mp hx with ⟨a, ha, rfl⟩
    have hmem := List.mem_filter.mp ha
    exact h a hmem.1 (by simpa using hmem.2)
  have hle : alertContractsFor alerts ced ≤ totalContractsFor cs ced := by
    unfold alertContractsFor totalContractsFor
    rw [← List.card_toFinset, ← List.card_toFinset]
    refine Finset.card_le_card ?_
    intro x hx
    exact List.mem_toFinset.mpr (hsub x (List.mem_toFinset.mp hx))
  have hbounds : 0 ≤ suspicionScore alerts cs ced ∧ suspicionScore alerts cs ced ≤ 100 := by
    unfold suspicionScore
    by_cases ht : totalContractsFor cs ced = 0
    · rw [if_pos ht]
      norm_num
    · rw [if_neg ht]
      have htpos : (0:ℚ) < (totalContractsFor cs ced : ℚ) := by
        exact_mod_cast Nat.pos_of_ne_zero ht
      constructor
      · positivity
      · rw [div_le_iff₀ htpos]
        have : (alertContractsFor alerts ced : ℚ) ≤ (totalContractsFor cs ced : ℚ) := by
          exact_mod_cast hle
        nlinarith
  refine ⟨rfl, ?_, hbounds.1, hbounds.2, ?_, ?_, ?_⟩
  · intro ht
    unfold suspicionScore
    rw [if_pos ht]
  · intro hq
    unfold clasificacion
    rw [if_pos hq]
  · intro hq1 hq2
    unfold clasificacion
    rw [if_neg (not_le.mpr hq2), if_pos hq1]
  · intro hq
    unfold clasificacion
    rw [if_neg (not_le.mpr (lt_of_lt_of_le hq (by norm_num))),
      if_neg (not_le.mpr hq)]

/-- Witness for C6: the witness identity holds one contract and one
alerted contract, scoring 100 and classifying as CRITICAL. -/
theorem suspicionScore_correct_witness :
    suspicionScore [alertW] [conW] "101234567" =
      (if totalContractsFor [conW] "101234567" = 0 then 0
       else 100 * (alertContractsFor [alertW] "101234567" : ℚ) /
        (totalContractsFor [conW] "101234567" : ℚ)) ∧
    (totalContractsFor [conW] "101234567" = 0 →
      suspicionScore [alertW] [conW] "101234567" = 0) ∧
    0 ≤ suspicionScore [alertW] [conW] "101234567" ∧
    suspicionScore [alertW] [conW] "101234567" ≤ 100 ∧
    (80 ≤ suspicionScore [alertW] [conW] "101234567" →
      clasificacion (suspicionScore [alertW] [conW] "101234567") = "CRITICAL") ∧
    (60 ≤ suspicionScore [alertW] [conW] "101234567" →
      suspicionScore [alertW] [conW] "101234567" < 80 →
      clasificacion (suspicionScore [alertW] [conW] "101234567") = "HIGH") ∧
    (suspicionScore [alertW] [conW] "101234567" < 60 →
      clasificacion (suspicionScore [alertW] [conW] "101234567") = "MEDIUM") :=
  suspicionScore_correct [alertW] [conW] "101234567" (by decide)

/-! ## C7: concentration partition invariant -/

/-- The ranked identity column of the concentration analysis is
duplicate-free. -/
theorem todosProveedores_keys_nodup (cs : List Contrato) :
    ((todosProveedores cs).map (fun p => p.1)).Nodup := by
  unfold todosProveedores
  refine (((sortBy_perm (fun a b : String × Nat => Nat.ble b.2 a.2)
      (((cs.map (fun c => c.cedula)).dedup).map
        (fun ced => (ced, totalContractsFor cs ced)))).map
      (fun p : String × Nat => p.1)).nodup_iff).mpr ?_
  rw [List.map_map]
  show (List.map (fun ced : String => ced) ((cs.map (fun c => c.cedula)).dedup)).Nodup
  rw [List.map_id']
  exact List.nodup_dedup _

/-- C7: the three concentration bands (ranks 1-10, 11-50, 51+) carry
pairwise disjoint identities, the rest band holds exactly the contracts
beyond rank 50, and the three band totals sum to the grand total of
distinct contracts. -/
theorem concentracion_particion (cs : List Contrato) :
    top10Contratos cs + top1150Contratos cs + restoContratos cs = totalContratos cs ∧
    restoContratos cs = (((todosProveedores cs).drop 50).map (fun p => p.2)).sum ∧
    (((todosProveedores cs).take 10).map (fun p => p.1)).Disjoint
      ((((todosProveedores cs).drop 10).take 40).map (fun p => p.1)) ∧
    (((todosProveedores cs).take 10).map (fun p => p.1)).Disjoint
      (((todosProveedores cs).drop 50).map (fun p => p.1)) ∧
    ((((todosProveedores cs).drop 10).take 40).map (fun p => p.1)).Disjoint
      (((todosProveedores cs).drop 50).map (fun p => p.1)) := by
  have hseg2 : top1150Contratos cs
      = ((((todosProveedores cs).drop 10).take 40).map (fun p => p.2)).sum := by
    unfold top1150Contratos
    by_cases hlen : 10 < (todosProveedores cs).length
    · rw [if_pos hlen]
    · rw [if_neg hlen]
      rw [List.drop_eq_nil_of_le (le_of_not_lt hlen)]
      rfl
  have hsplit1 : totalContratos cs
      = top10Contratos cs + (((todosProveedores cs).drop 10).map (fun p => p.2)).sum := by
    unfold totalContratos top10Contratos
    conv_lhs => rw [← List.take_append_drop 10 (todosProveedores cs)]
    rw [List.map_append, List.sum_append]
  have hsplit2 : (((todosProveedores cs).drop 10).map (fun p => p.2)).sum
      = ((((todosProveedores cs).drop 10).take 40).map (fun p => p.2)).sum
        + (((todosProveedores cs).drop 50).map (fun p => p.2)).sum := by
    conv_lhs => rw [← List.take_append_drop 40 ((todosProveedores cs).drop 10)]
    rw [List.map_append, List.sum_append, List.drop_drop]
  have htotal : totalContratos cs = top10Contratos cs + top1150Contratos cs
      + (((todosProveedores cs).drop 50).map (fun p => p.2)).sum := by
    rw [hsplit1, hsplit2, hseg2]
    ring
  have hresto : restoContratos cs
      = (((todosProveedores cs).drop 50).map (fun p => p.2)).sum := by
    unfold restoContratos
    omega
  have hks := todosProveedores_keys_nodup cs
  have hd1 := List.disjoint_take_drop (m := 10) (n := 10) hks (le_refl 10)
  have hdrop50 : ((todosProveedores cs).map (fun p => p.1)).drop 50
      = (((todosProveedores cs).map (fun p => p.1)).drop 10).drop 40 := by
    rw [List.drop_drop]
  refine ⟨by omega, hresto, ?_, ?_, ?_⟩
  · rw [List.map_take, List.map_take, List.map_drop]
    intro a ha hb
    exact hd1 ha (List.take_subset 40 _ hb)
  · rw [List.map_take, List.map_drop]
    intro a ha hb
    rw [hdrop50] at hb
    exact hd1 ha (List.drop_subset 40 _ hb)
  · rw [List.map_take, List.map_drop, List.map_drop]
    have hnodup10 : (((todosProveedores cs).map (fun p => p.1)).drop 10).Nodup :=
      (List.drop_sublist 10 _).nodup hks
    have hd3 := List.disjoint_take_drop (m := 40) (n := 40) hnodup10 (le_refl 40)
    intro a ha hb
    rw [hdrop50] at hb
    exact hd3 ha hb

end Rastreador
